import Mathlib

/-!
Verification of the `dive_game` Anchor program (programs/dive_game/src):
a shallow embedding of the game math (`game_math.rs`), the account state
types and their methods (`states.rs`), and the instruction handlers
(`instructions/*.rs`), together with theorems settling the specification
claims about them.

Machine integers are modelled as `Nat` with explicit saturation or
checked bounds where the Rust code saturates or checks:
`u64::saturating_sub` on `Nat` is plain truncated subtraction,
`saturating_mul`/`saturating_add` clamp at the type's maximum, and
`checked_*` operations return an error through `Except`.

A failing Anchor instruction aborts the whole transaction, so every
handler is embedded as a function returning `Except GameError σ`: an
`error` result carries no new state, mirroring the all-or-nothing
commitment of the host runtime.  Account closure (zeroing the account's
lamports so the runtime reclaims it) is modelled by returning `none`
for the session, and external inputs the program reads from the host
(the clock slot, the vault's lamport balance, the hash-derived random
roll) are passed as explicit arguments.
-/

set_option maxRecDepth 100000

deriving instance DecidableEq for Except

/-- Maximum value of `u32`. -/
def U32MAX : Nat := 4294967295

/-- Maximum value of `u64`. -/
def U64MAX : Nat := 18446744073709551615

/-- Maximum value of `u128`. -/
def U128MAX : Nat := 340282366920938463463374607431768211455

/-- From `game_math.rs`: `survival_probability_bps(dive_number: u16) -> u32`.
`reduction = (dive_number.saturating_sub(1) as u32).saturating_mul(DECAY_FACTOR)`
with `DECAY_FACTOR = 5_000`, then
`BASE_PROB_BPS.saturating_sub(reduction).max(MIN_PROB_BPS)` with
`BASE_PROB_BPS = 990_000` and `MIN_PROB_BPS = 100_000`.  `Nat`
subtraction is truncated, which is exactly `u32::saturating_sub`;
the `u32` saturating multiplication clamps at `U32MAX`. -/
def survival_probability_bps (dive_number : Nat) : Nat :=
  max (990000 - min ((dive_number - 1) * 5000) U32MAX) 100000

/-- From `game_math.rs`: `max_payout_for_bet(bet_amount: u64) -> u64` is
`bet_amount.saturating_mul(100)`. -/
def max_payout_for_bet (bet_amount : Nat) : Nat :=
  min (bet_amount * 100) U64MAX

/-- The loop body of `treasure_for_dive`, iterated `dive_number` times.
Each iteration performs
`result.checked_mul(11).and_then(|v| v.checked_div(10)).unwrap_or(max)`
on `u128` (division by the non-zero constant 10 never fails, so only
the multiplication can overflow), then returns `max` early once
`result >= max`; when the fuel runs out the Rust code converts back to
`u64` with `result.min(max)`. -/
def treasureStep (maxPayout result : Nat) : Nat :=
  if result * 11 ≤ U128MAX then result * 11 / 10 else maxPayout

/-- The iterated loop of `treasure_for_dive`: apply `treasureStep`
`dive_number` times, returning `max` early once `result >= max`; when
the fuel runs out the Rust code converts back to `u64` with
`result.min(max)`. -/
def treasureLoop (maxPayout : Nat) : Nat → Nat → Nat
  | result, 0 => min result maxPayout
  | result, Nat.succ n =>
    let r := treasureStep maxPayout result
    if maxPayout ≤ r then maxPayout else treasureLoop maxPayout r n

/-- From `game_math.rs`: `treasure_for_dive(bet_amount: u64, dive_number: u16) -> u64`.
`dive_number == 0` returns the bet unchanged; otherwise the growth loop
runs `dive_number` times starting from `bet_amount`, capped at
`max_payout_for_bet(bet_amount)`. -/
def treasure_for_dive (bet_amount dive_number : Nat) : Nat :=
  if dive_number = 0 then bet_amount
  else treasureLoop (max_payout_for_bet bet_amount) bet_amount dive_number

/-- The `while treasure_for_dive(bet, dive) < max && dive < 200 { dive += 1 }`
loop of `max_dives_for_bet`, written with explicit fuel.  The guard
`dive < 200` bounds the number of iterations by `200 - dive`, so any
fuel with `200 ≤ dive + fuel` makes the fuel irrelevant; the callers
pass fuel 200 starting from `dive = 1`. -/
def maxDivesLoop (bet_amount maxPayout : Nat) : Nat → Nat → Nat
  | 0, dive => dive
  | Nat.succ n, dive =>
    if treasure_for_dive bet_amount dive < maxPayout ∧ dive < 200 then
      maxDivesLoop bet_amount maxPayout n (dive + 1)
    else dive

/-- From `game_math.rs`: `max_dives_for_bet(bet_amount: u64) -> u16` starts at
`dive = 1` and increments while `treasure_for_dive(bet, dive) < max`
and `dive < 200`. -/
def max_dives_for_bet (bet_amount : Nat) : Nat :=
  maxDivesLoop bet_amount (max_payout_for_bet bet_amount) 200 1

/-- From `states.rs`: the `SessionStatus` enum. -/
inductive SessionStatus
  | Active
  | Lost
  | CashedOut
deriving DecidableEq

/-- From `errors.rs`: the `GameError` variants reached by the embedded
instruction handlers. -/
inductive GameError
  | HouseLocked
  | InvalidSessionStatus
  | InvalidBetAmount
  | InsufficientVaultBalance
  | Overflow
  | InsufficientTreasure
  | MaxDivesReached
  | SessionNotExpired
deriving DecidableEq

/-- From `states.rs`: the `HouseVault` account, restricted to the fields the
claims are about.  The `house_authority` / `game_keeper` pubkeys and the
PDA `bump` carry no accounting content and are omitted; the vault's
lamport balance lives on the account itself and is passed to handlers
as an explicit argument. -/
structure HouseVault where
  locked : Bool
  total_reserved : Nat
deriving DecidableEq

/-- From `states.rs`: the `GameConfig` account (the `admin` pubkey and PDA
`bump` omitted). -/
structure GameConfig where
  base_survival_ppm : Nat
  decay_per_dive_ppm : Nat
  min_survival_ppm : Nat
  treasure_multiplier_num : Nat
  treasure_multiplier_den : Nat
  max_payout_multiplier : Nat
  max_dives : Nat
  min_bet : Nat
  max_bet : Nat
deriving DecidableEq

/-- From `states.rs`: `GameConfig::default_config()`. -/
def GameConfig.default_config : GameConfig :=
  { base_survival_ppm := 700000
    decay_per_dive_ppm := 8000
    min_survival_ppm := 50000
    treasure_multiplier_num := 19
    treasure_multiplier_den := 10
    max_payout_multiplier := 100
    max_dives := 5
    min_bet := 50000000
    max_bet := 100000000 }

/-- From `states.rs`: the `GameSession` account (the `user` / `house_vault`
pubkeys and PDA `bump` omitted). -/
structure GameSession where
  status : SessionStatus
  bet_amount : Nat
  current_treasure : Nat
  max_payout : Nat
  dive_number : Nat
  last_active_slot : Nat
deriving DecidableEq

/-- From `states.rs`: `HouseVault::reserve(amount)` uses
`checked_add`, failing with `GameError::Overflow` past `u64::MAX`. -/
def HouseVault.reserve (v : HouseVault) (amount : Nat) :
    Except GameError HouseVault :=
  if v.total_reserved + amount ≤ U64MAX then
    .ok { v with total_reserved := v.total_reserved + amount }
  else .error .Overflow

/-- From `states.rs`: `HouseVault::release(amount)` uses `saturating_sub`
(truncated `Nat` subtraction) and always returns `Ok(())`. -/
def HouseVault.release (v : HouseVault) (amount : Nat) :
    Except GameError HouseVault :=
  .ok { v with total_reserved := v.total_reserved - amount }

/-- From `states.rs`: `GameSession::ensure_active()`. -/
def GameSession.ensure_active (s : GameSession) : Except GameError Unit :=
  if s.status = .Active then .ok () else .error .InvalidSessionStatus

/-- From `states.rs`: `GameSession::mark_lost()`. -/
def GameSession.mark_lost (s : GameSession) : Except GameError GameSession :=
  if s.status = .Active then .ok { s with status := .Lost }
  else .error .InvalidSessionStatus

/-- From `states.rs`: `GameSession::mark_cashed_out()`. -/
def GameSession.mark_cashed_out (s : GameSession) :
    Except GameError GameSession :=
  if s.status = .Active then .ok { s with status := .CashedOut }
  else .error .InvalidSessionStatus

/-- From `instructions/start_session.rs`: the handler's account mutations.
`vaultBalance` is the vault account's lamport balance before the bet
transfer and `slot` the current clock slot.  Check order as in the
source: locked, `bet_amount > 0`, then — after the bet has been moved
into the vault, so the balance read by the solvency check already
includes it — `checked_sub` of `total_reserved` from the balance,
`available >= max_payout`, and `checked_add` of the reservation.
On success the new session starts `Active` at dive 1 with
`current_treasure = bet_amount`.  (The handler also derives an RNG seed
from the SlotHashes sysvar between the reservation and the session
writes; that external entropy does not affect any field modelled
here.) -/
def start_session (v : HouseVault) (vaultBalance slot bet_amount : Nat) :
    Except GameError (HouseVault × GameSession) :=
  if v.locked then .error .HouseLocked
  else if bet_amount = 0 then .error .InvalidBetAmount
  else
    let maxPayout := max_payout_for_bet bet_amount
    let balanceAfter := vaultBalance + bet_amount
    if balanceAfter < v.total_reserved then .error .Overflow
    else if balanceAfter - v.total_reserved < maxPayout then
      .error .InsufficientVaultBalance
    else if U64MAX < v.total_reserved + maxPayout then .error .Overflow
    else
      .ok ({ v with total_reserved := v.total_reserved + maxPayout },
        { status := .Active
          bet_amount := bet_amount
          current_treasure := bet_amount
          max_payout := maxPayout
          dive_number := 1
          last_active_slot := slot })

/-- From `instructions/play_round.rs`: the handler's account mutations.
`roll` is the hash-derived value in `[0, 1_000_000)` (the entropy and
hashing pipeline is an external-host concern; only the reduced roll
reaches the game logic) and `slot` the current clock slot.  Check order
as in the source: locked, status `Active`, `dive_number < max_dives`.
The player survives iff `roll < survival_probability_bps dive_number`;
on survival the session advances, on a loss the reservation is
released with `HouseVault::release` and the session account is closed
(returned as `none`). -/
def play_round (config : GameConfig) (v : HouseVault) (s : GameSession)
    (roll slot : Nat) : Except GameError (HouseVault × Option GameSession) :=
  if v.locked then .error .HouseLocked
  else if ¬ s.status = .Active then .error .InvalidSessionStatus
  else if ¬ s.dive_number < config.max_dives then .error .MaxDivesReached
  else if roll < survival_probability_bps s.dive_number then
    .ok (v, some { s with
      dive_number := s.dive_number + 1
      current_treasure := treasure_for_dive s.bet_amount (s.dive_number + 1)
      last_active_slot := slot })
  else
    .ok ({ v with total_reserved := v.total_reserved - s.max_payout }, none)

/-- From `instructions/cash_out.rs`: the handler's account mutations.
Check order as in the source: `ensure_active`, locked,
`current_treasure > bet_amount`, vault balance covers the payout; then
the payout is transferred, `HouseVault::release(max_payout)` runs,
the session is marked `CashedOut` and its account closed (`none`). -/
def cash_out (v : HouseVault) (vaultBalance : Nat) (s : GameSession)
    (_slot : Nat) : Except GameError (HouseVault × Option GameSession) :=
  if ¬ s.status = .Active then .error .InvalidSessionStatus
  else if v.locked then .error .HouseLocked
  else if ¬ s.bet_amount < s.current_treasure then .error .InsufficientTreasure
  else if vaultBalance < s.current_treasure then .error .InsufficientVaultBalance
  else
    .ok ({ v with total_reserved := v.total_reserved - s.max_payout }, none)

/-- From `instructions/clean_expired_session.rs`: `TIMEOUT_SLOTS`. -/
def TIMEOUT_SLOTS : Nat := 9000

/-- From `instructions/clean_expired_session.rs`: the handler's account
mutations.  Check order as in the source: `checked_sub` of
`last_active_slot` from the clock slot, `slots_inactive > TIMEOUT_SLOTS`,
status `Active`; then `HouseVault::release(max_payout)` runs and the
session account is closed by the `close = crank` constraint. -/
def clean_expired_session (v : HouseVault) (s : GameSession) (slot : Nat) :
    Except GameError HouseVault :=
  if slot < s.last_active_slot then .error .Overflow
  else if ¬ TIMEOUT_SLOTS < slot - s.last_active_slot then
    .error .SessionNotExpired
  else if ¬ s.status = .Active then .error .InvalidSessionStatus
  else .ok { v with total_reserved := v.total_reserved - s.max_payout }

/-- From `instructions/lose_session.rs`: the handler's account mutations.
Check order as in the source: status `Active`, then — unlike
`HouseVault::release` — an inline `checked_sub` of the session's
`max_payout` from `total_reserved`, failing with `GameError::Overflow`
on under-reservation; finally the session is marked `Lost` (its
account stays open). -/
def lose_session (v : HouseVault) (s : GameSession) :
    Except GameError (HouseVault × GameSession) :=
  if ¬ s.status = .Active then .error .InvalidSessionStatus
  else if v.total_reserved < s.max_payout then .error .Overflow
  else
    .ok ({ v with total_reserved := v.total_reserved - s.max_payout },
      { s with status := .Lost })

/-- One ledger (a `HouseVault` with its lamport balance) together with
the open session accounts drawing from it.  Sessions whose accounts the
runtime has reclaimed (lamports zeroed / `close`d) are removed from the
list. -/
structure LedgerState where
  vault : HouseVault
  balance : Nat
  sessions : List GameSession

/-- Sum of `max_payout` over the `Active` sessions of a list. -/
def sumActive : List GameSession → Nat
  | [] => 0
  | s :: rest =>
    (if s.status = .Active then s.max_payout else 0) + sumActive rest

/-- One successful user-facing operation on a ledger, built directly
from the embedded instruction handlers: open (`start_session`, the bet
lamports having entered the vault), advance (`play_round` on one of the
ledger's sessions — on a loss the handler returns `none` and the closed
session leaves the list), cash-out (`cash_out`, paying
`current_treasure` out of the vault and closing the session), and
timeout-reclaim (`clean_expired_session`, closing the session). -/
inductive Step : LedgerState → LedgerState → Prop
  | openSession (st : LedgerState) (bet slot : Nat) (v' : HouseVault)
      (s' : GameSession) :
      start_session st.vault st.balance slot bet = .ok (v', s') →
      Step st ⟨v', st.balance + bet, st.sessions ++ [s']⟩
  | playRound (st : LedgerState) (config : GameConfig) (roll slot : Nat)
      (pre post : List GameSession) (s : GameSession) (v' : HouseVault)
      (out : Option GameSession) :
      st.sessions = pre ++ s :: post →
      play_round config st.vault s roll slot = .ok (v', out) →
      Step st ⟨v', st.balance, pre ++ out.toList ++ post⟩
  | cashOut (st : LedgerState) (slot : Nat) (pre post : List GameSession)
      (s : GameSession) (v' : HouseVault) (out : Option GameSession) :
      st.sessions = pre ++ s :: post →
      cash_out st.vault st.balance s slot = .ok (v', out) →
      Step st ⟨v', st.balance - s.current_treasure, pre ++ out.toList ++ post⟩
  | cleanExpired (st : LedgerState) (slot : Nat)
      (pre post : List GameSession) (s : GameSession) (v' : HouseVault) :
      st.sessions = pre ++ s :: post →
      clean_expired_session st.vault s slot = .ok v' →
      Step st ⟨v', st.balance, pre ++ post⟩

/-- States reachable from a freshly initialized vault:
`init_house_vault` writes `total_reserved = 0` (with either lock
setting) and no session accounts exist yet. -/
inductive Reach : LedgerState → Prop
  | init (locked : Bool) (balance : Nat) : Reach ⟨⟨locked, 0⟩, balance, []⟩
  | step {st st' : LedgerState} : Reach st → Step st st' → Reach st'

/-- The `u32` saturating multiplication inside `survival_probability_bps`
never changes the result: past the saturation point the subtraction has
already bottomed out at zero, so the function agrees everywhere with
the plain formula. -/
lemma survival_probability_bps_eq (d : Nat) :
    survival_probability_bps d = max (990000 - (d - 1) * 5000) 100000 := by
  unfold survival_probability_bps U32MAX
  omega

lemma survival_probability_bps_lower (d : Nat) :
    100000 ≤ survival_probability_bps d := by
  rw [survival_probability_bps_eq]; omega

lemma survival_probability_bps_upper (d : Nat) :
    survival_probability_bps d ≤ 1000000 := by
  rw [survival_probability_bps_eq]; omega

lemma survival_probability_bps_antitone {d d' : Nat} (h : d ≤ d') :
    survival_probability_bps d' ≤ survival_probability_bps d := by
  rw [survival_probability_bps_eq, survival_probability_bps_eq]
  have : (d - 1) * 5000 ≤ (d' - 1) * 5000 :=
    Nat.mul_le_mul_right 5000 (by omega)
  omega

lemma treasureLoop_zero (maxP r : Nat) :
    treasureLoop maxP r 0 = min r maxP := rfl

lemma treasureLoop_succ (maxP r n : Nat) :
    treasureLoop maxP r (n + 1) =
      if maxP ≤ treasureStep maxP r then maxP
      else treasureLoop maxP (treasureStep maxP r) n := rfl

lemma treasureLoop_le (maxP : Nat) : ∀ n r, treasureLoop maxP r n ≤ maxP := by
  intro n
  induction n with
  | zero => intro r; exact Nat.min_le_right _ _
  | succ n ih =>
    intro r
    rw [treasureLoop_succ]
    by_cases hc : maxP ≤ treasureStep maxP r
    · rw [if_pos hc]
    · rw [if_neg hc]
      exact ih _

/-- One loop iteration of `treasure_for_dive` never decreases the
running value (below the cap, `result * 11 / 10 ≥ result`; the overflow
fallback jumps to the cap). -/
lemma le_treasureStep (maxP r : Nat) (h : r ≤ maxP) :
    r ≤ treasureStep maxP r := by
  unfold treasureStep
  split
  · have h10 : r * 10 ≤ r * 11 := Nat.mul_le_mul_left r (by omega)
    exact (Nat.le_div_iff_mul_le (k := 10) (by omega)).mpr h10
  · exact h

lemma le_treasureLoop (maxP : Nat) :
    ∀ n r, r ≤ maxP → r ≤ treasureLoop maxP r n := by
  intro n
  induction n with
  | zero =>
    intro r h
    rw [treasureLoop_zero]
    omega
  | succ n ih =>
    intro r h
    rw [treasureLoop_succ]
    have hstep := le_treasureStep maxP r h
    by_cases hc : maxP ≤ treasureStep maxP r
    · rw [if_pos hc]; exact h
    · rw [if_neg hc]
      exact Nat.le_trans hstep (ih _ (by omega))

/-- Adding one unit of fuel to the growth loop never decreases its
result. -/
lemma treasureLoop_fuel_mono (maxP : Nat) :
    ∀ n r, r ≤ maxP →
      treasureLoop maxP r n ≤ treasureLoop maxP r (n + 1) := by
  intro n
  induction n with
  | zero =>
    intro r h
    have hstep := le_treasureStep maxP r h
    rw [treasureLoop_zero, treasureLoop_succ]
    by_cases hc : maxP ≤ treasureStep maxP r
    · rw [if_pos hc]; omega
    · rw [if_neg hc, treasureLoop_zero]
      omega
  | succ n ih =>
    intro r h
    rw [treasureLoop_succ, treasureLoop_succ maxP r (n + 1)]
    by_cases hc : maxP ≤ treasureStep maxP r
    · rw [if_pos hc, if_pos hc]
    · rw [if_neg hc, if_neg hc]
      exact ih _ (by omega)

lemma bet_le_max_payout {bet : Nat} (h : bet ≤ U64MAX) :
    bet ≤ max_payout_for_bet bet := by
  unfold max_payout_for_bet
  have : bet * 1 ≤ bet * 100 := Nat.mul_le_mul_left bet (by omega)
  omega

lemma treasure_for_dive_le {bet : Nat} (h : bet ≤ U64MAX) (d : Nat) :
    treasure_for_dive bet d ≤ max_payout_for_bet bet := by
  unfold treasure_for_dive
  split
  · exact bet_le_max_payout h
  · exact treasureLoop_le _ _ _

lemma treasure_for_dive_mono {bet : Nat} (h : bet ≤ U64MAX) (d : Nat) :
    treasure_for_dive bet d ≤ treasure_for_dive bet (d + 1) := by
  unfold treasure_for_dive
  rcases Nat.eq_zero_or_pos d with hd | hd
  · subst hd
    simp only [if_pos rfl, if_neg (Nat.one_ne_zero)]
    exact le_treasureLoop _ _ _ (bet_le_max_payout h)
  · rw [if_neg (by omega), if_neg (by omega)]
    exact treasureLoop_fuel_mono _ _ _ (bet_le_max_payout h)

/-- Behaviour of the `max_dives_for_bet` search loop: starting from any
`dive ∈ [1, 200]` with enough fuel to reach the guard bound, the loop
returns the first index at which the treasure reaches `maxP` (or 200
when the guard cuts the search off), and every index it skipped was
strictly below `maxP`. -/
lemma maxDivesLoop_spec (bet maxP : Nat) :
    ∀ fuel dive, 1 ≤ dive → dive ≤ 200 → 200 ≤ dive + fuel →
      dive ≤ maxDivesLoop bet maxP fuel dive ∧
      maxDivesLoop bet maxP fuel dive ≤ 200 ∧
      (¬ treasure_for_dive bet (maxDivesLoop bet maxP fuel dive) < maxP ∨
        maxDivesLoop bet maxP fuel dive = 200) ∧
      ∀ d, dive ≤ d → d < maxDivesLoop bet maxP fuel dive →
        treasure_for_dive bet d < maxP := by
  intro fuel
  induction fuel with
  | zero =>
    intro dive h1 h2 h3
    simp only [maxDivesLoop]
    exact ⟨Nat.le_refl _, h2, Or.inr (by omega), fun d hd hd' => by omega⟩
  | succ n ih =>
    intro dive h1 h2 h3
    simp only [maxDivesLoop]
    split
    · rename_i hguard
      obtain ⟨ht, hlt⟩ := hguard
      obtain ⟨g1, g2, g3, g4⟩ := ih (dive + 1) (by omega) (by omega) (by omega)
      refine ⟨by omega, g2, g3, ?_⟩
      intro d hd hd'
      rcases Nat.eq_or_lt_of_le hd with hq | hq
      · subst hq; exact ht
      · exact g4 d (by omega) hd'
    · rename_i hguard
      refine ⟨Nat.le_refl _, h2, ?_, fun d hd hd' => by omega⟩
      by_cases ht : treasure_for_dive bet dive < maxP
      · refine Or.inr ?_
        rcases Decidable.not_and_iff_or_not.mp hguard with hc | hc
        · exact absurd ht hc
        · omega
      · exact Or.inl ht

/-- What a successful `start_session` did: it kept the lock, grew
`total_reserved` by exactly `max_payout_for_bet bet`, and produced an
`Active` session reserving exactly that amount. -/
lemma start_session_ok {v : HouseVault} {bal slot bet : Nat}
    {v' : HouseVault} {s' : GameSession}
    (h : start_session v bal slot bet = .ok (v', s')) :
    v'.locked = v.locked ∧
    v'.total_reserved = v.total_reserved + max_payout_for_bet bet ∧
    s'.status = .Active ∧ s'.max_payout = max_payout_for_bet bet := by
  simp only [start_session] at h
  split at h
  · exact absurd h (by simp)
  · split at h
    · exact absurd h (by simp)
    · split at h
      · exact absurd h (by simp)
      · split at h
        · exact absurd h (by simp)
        · split at h
          · exact absurd h (by simp)
          · simp only [Except.ok.injEq, Prod.mk.injEq] at h
            obtain ⟨hv, hs⟩ := h
            subst hv hs
            exact ⟨rfl, rfl, rfl, rfl⟩

/-- What a successful `play_round` did: the session was `Active`, and
either the player survived (vault untouched, session still `Active`
with the same `max_payout`) or lost (session closed, reservation
released with `saturating_sub`). -/
lemma play_round_ok {config : GameConfig} {v : HouseVault}
    {s : GameSession} {roll slot : Nat} {v' : HouseVault}
    {out : Option GameSession}
    (h : play_round config v s roll slot = .ok (v', out)) :
    s.status = .Active ∧
    ((v' = v ∧ ∃ s', out = some s' ∧ s'.status = .Active ∧
        s'.max_payout = s.max_payout) ∨
      (out = none ∧ v'.locked = v.locked ∧
        v'.total_reserved = v.total_reserved - s.max_payout)) := by
  unfold play_round at h
  split at h
  · exact absurd h (by simp)
  · split at h
    · exact absurd h (by simp)
    · rename_i hact
      rw [not_not] at hact
      split at h
      · exact absurd h (by simp)
      · split at h
        · simp only [Except.ok.injEq, Prod.mk.injEq] at h
          obtain ⟨hv, hout⟩ := h
          subst hv
          exact ⟨hact, Or.inl ⟨rfl, _, hout.symm, hact, rfl⟩⟩
        · simp only [Except.ok.injEq, Prod.mk.injEq] at h
          obtain ⟨hv, hout⟩ := h
          subst hv
          exact ⟨hact, Or.inr ⟨hout.symm, rfl, rfl⟩⟩

/-- What a successful `cash_out` did: the session was `Active` and
strictly profitable; the session account was closed and the
reservation released with `saturating_sub`. -/
lemma cash_out_ok {v : HouseVault} {bal : Nat} {s : GameSession}
    {slot : Nat} {v' : HouseVault} {out : Option GameSession}
    (h : cash_out v bal s slot = .ok (v', out)) :
    s.status = .Active ∧ s.bet_amount < s.current_treasure ∧
    out = none ∧ v'.locked = v.locked ∧
    v'.total_reserved = v.total_reserved - s.max_payout := by
  unfold cash_out at h
  split at h
  · exact absurd h (by simp)
  · rename_i hact
    rw [not_not] at hact
    split at h
    · exact absurd h (by simp)
    · split at h
      · exact absurd h (by simp)
      · rename_i hprofit
        rw [not_not] at hprofit
        split at h
        · exact absurd h (by simp)
        · simp only [Except.ok.injEq, Prod.mk.injEq] at h
          obtain ⟨hv, hout⟩ := h
          subst hv
          exact ⟨hact, hprofit, hout.symm, rfl, rfl⟩

/-- What a successful `clean_expired_session` did: the session was
`Active` (and expired); the reservation was released with
`saturating_sub`. -/
lemma clean_expired_session_ok {v : HouseVault} {s : GameSession}
    {slot : Nat} {v' : HouseVault}
    (h : clean_expired_session v s slot = .ok v') :
    s.status = .Active ∧ v'.locked = v.locked ∧
    v'.total_reserved = v.total_reserved - s.max_payout := by
  unfold clean_expired_session at h
  split at h
  · exact absurd h (by simp)
  · split at h
    · exact absurd h (by simp)
    · split at h
      · exact absurd h (by simp)
      · rename_i hact
        rw [not_not] at hact
        simp only [Except.ok.injEq] at h
        subst h
        exact ⟨hact, rfl, rfl⟩

lemma sumActive_nil : sumActive [] = 0 := rfl

lemma sumActive_cons (s : GameSession) (l : List GameSession) :
    sumActive (s :: l) =
      (if s.status = .Active then s.max_payout else 0) + sumActive l := rfl

lemma sumActive_append (a b : List GameSession) :
    sumActive (a ++ b) = sumActive a + sumActive b := by
  induction a with
  | nil => rw [List.nil_append, sumActive_nil]; omega
  | cons s rest ih =>
    rw [List.cons_append, sumActive_cons, sumActive_cons, ih]
    omega

/-- Every successful user-facing operation preserves the conservation
law `total_reserved = Σ max_payout over Active sessions`.  The release
side uses `saturating_sub`, but under the invariant the reservation
being released is one of the summands, so the subtraction is exact. -/
lemma step_preserves_reserved {st st' : LedgerState} (hstep : Step st st')
    (hinv : st.vault.total_reserved = sumActive st.sessions) :
    st'.vault.total_reserved = sumActive st'.sessions := by
  cases hstep with
  | openSession bet slot v' s' h =>
    obtain ⟨-, hres, hact, hmax⟩ := start_session_ok h
    show v'.total_reserved = sumActive (st.sessions ++ [s'])
    rw [sumActive_append, sumActive_cons, sumActive_nil, if_pos hact]
    omega
  | playRound config roll slot pre post s v' out hsess h =>
    obtain ⟨hact, hcase⟩ := play_round_ok h
    rw [hsess] at hinv
    rw [sumActive_append, sumActive_cons, if_pos hact] at hinv
    show v'.total_reserved = sumActive (pre ++ out.toList ++ post)
    rcases hcase with ⟨hv, s', hout, hact', hmax'⟩ | ⟨hout, -, hres⟩
    · subst hv hout
      rw [sumActive_append, sumActive_append]
      simp only [Option.toList]
      rw [sumActive_cons, sumActive_nil, if_pos hact']
      omega
    · subst hout
      rw [sumActive_append, sumActive_append]
      simp only [Option.toList]
      rw [sumActive_nil]
      omega
  | cashOut slot pre post s v' out hsess h =>
    obtain ⟨hact, -, hout, -, hres⟩ := cash_out_ok h
    subst hout
    rw [hsess] at hinv
    rw [sumActive_append, sumActive_cons, if_pos hact] at hinv
    show v'.total_reserved = sumActive (pre ++ Option.toList none ++ post)
    rw [sumActive_append, sumActive_append]
    simp only [Option.toList]
    rw [sumActive_nil]
    omega
  | cleanExpired slot pre post s v' hsess h =>
    obtain ⟨hact, -, hres⟩ := clean_expired_session_ok h
    rw [hsess] at hinv
    rw [sumActive_append, sumActive_cons, if_pos hact] at hinv
    show v'.total_reserved = sumActive (pre ++ post)
    rw [sumActive_append]
    omega


/-- C1 counterexample: `HouseVault::release` does NOT fail when
`total_reserved < amount` — releasing 1000 from a vault holding a
reservation of only 500 succeeds and silently clamps the counter to
zero (this is also what the source's own unit test
`test_release_more_than_reserved` asserts). -/
theorem release_claim_counterexample :
    500 < 1000 ∧
    HouseVault.release ⟨false, 500⟩ 1000 = .ok ⟨false, 0⟩ := by
  exact ⟨by omega, rfl⟩

/-- C1 (amended): `HouseVault::release` never fails: it always returns
`Ok` with `total_reserved` saturating-subtracted, so an over-release
clamps the counter to zero instead of erroring; only the `lose_session`
instruction, which bypasses `release` and subtracts with `checked_sub`
inline, rejects an under-reserved release with `Overflow`. -/
theorem release_clamps_lose_session_rejects
    (v : HouseVault) (amount : Nat) (s : GameSession) :
    HouseVault.release v amount = .ok ⟨v.locked, v.total_reserved - amount⟩ ∧
    (v.total_reserved < amount → v.total_reserved - amount = 0) ∧
    (s.status = .Active → v.total_reserved < s.max_payout →
      lose_session v s = .error .Overflow) := by
  refine ⟨rfl, by omega, ?_⟩
  intro hact hlt
  unfold lose_session
  rw [if_neg (not_not_intro hact), if_pos hlt]

/-- C1 witness: the amended statement evaluated at a vault holding 300
with a release of 700 and an `Active` session reserving 400. -/
theorem release_clamps_lose_session_rejects_witness :
    HouseVault.release ⟨true, 300⟩ 700 = .ok ⟨true, 0⟩ ∧
    (300 : Nat) - 700 = 0 ∧
    lose_session ⟨true, 300⟩ ⟨.Active, 10, 10, 400, 1, 0⟩ = .error .Overflow := by
  obtain ⟨h1, h2, h3⟩ :=
    release_clamps_lose_session_rejects ⟨true, 300⟩ 700 ⟨.Active, 10, 10, 400, 1, 0⟩
  exact ⟨h1, h2 (by decide), h3 rfl (by decide)⟩

/-- C2: conservation of reservations.  In every ledger state reachable
from a freshly initialized vault (`total_reserved = 0`, no sessions) by
the user-facing operations — open (`start_session`), advance
(`play_round`, both survive and lose branches), cash-out (`cash_out`)
and timeout-reclaim (`clean_expired_session`) — `total_reserved` equals
the sum of `max_payout` over the currently `Active` sessions: the open
path adds exactly the new session's `max_payout` once, and every
terminating path subtracts exactly that session's `max_payout` once. -/
theorem total_reserved_conservation (st : LedgerState) (h : Reach st) :
    st.vault.total_reserved = sumActive st.sessions := by
  induction h with
  | init locked balance => rfl
  | step hr hs ih => exact step_preserves_reserved hs ih

/-- C2 witness: the invariant evaluated on the concrete state reached
by opening one session with bet 1000000 (reserving its
`max_payout = 100000000`) on a fresh unlocked vault holding
1000000000 lamports. -/
theorem total_reserved_conservation_witness :
    (⟨⟨false, 100000000⟩, 1001000000,
      [⟨.Active, 1000000, 1000000, 100000000, 1, 3⟩]⟩ :
        LedgerState).vault.total_reserved =
      sumActive [⟨.Active, 1000000, 1000000, 100000000, 1, 3⟩] := by
  exact total_reserved_conservation _
    (Reach.step (Reach.init false 1000000000)
      (Step.openSession ⟨⟨false, 0⟩, 1000000000, []⟩ 1000000 3
        ⟨false, 100000000⟩ ⟨.Active, 1000000, 1000000, 100000000, 1, 3⟩
        (by decide)))

/-- C3 counterexample: with the house lock set, `play_round` on an
already-open `Active` session is blocked with `HouseLocked`, refuting
the claim that the lock never blocks resolution of open sessions
(the source comments this deliberately: the lock blocks everything
except the keeper paths). -/
theorem lock_blocks_play_round_counterexample :
    (⟨.Active, 100, 100, 10000, 1, 0⟩ : GameSession).status = .Active ∧
    play_round GameConfig.default_config ⟨true, 10000⟩
      ⟨.Active, 100, 100, 10000, 1, 0⟩ 0 5 = .error .HouseLocked := by
  exact ⟨rfl, rfl⟩

/-- C3 (amended): `locked = true` blocks `start_session`, and also
blocks the player-facing resolution paths `play_round` and `cash_out`
(each rejecting with `HouseLocked`); only the `lose_session` and
`clean_expired_session` paths ignore the lock and run to completion
on a locked vault. -/
theorem lock_scope (v : HouseVault) (config : GameConfig)
    (s : GameSession) (bal slot bet roll : Nat) :
    (v.locked = true → start_session v bal slot bet = .error .HouseLocked) ∧
    (v.locked = true → play_round config v s roll slot = .error .HouseLocked) ∧
    (v.locked = true → s.status = .Active →
      cash_out v bal s slot = .error .HouseLocked) ∧
    (s.status = .Active → s.max_payout ≤ v.total_reserved →
      lose_session v s =
        .ok (⟨v.locked, v.total_reserved - s.max_payout⟩,
          { s with status := .Lost })) ∧
    (s.status = .Active → s.last_active_slot ≤ slot →
      TIMEOUT_SLOTS < slot - s.last_active_slot →
      clean_expired_session v s slot =
        .ok ⟨v.locked, v.total_reserved - s.max_payout⟩) := by
  refine ⟨?_, ?_, ?_, ?_, ?_⟩
  · intro hl
    simp only [start_session]
    rw [if_pos hl]
  · intro hl
    unfold play_round
    rw [if_pos hl]
  · intro hl hact
    unfold cash_out
    rw [if_neg (not_not_intro hact), if_pos hl]
  · intro hact hle
    unfold lose_session
    rw [if_neg (not_not_intro hact), if_neg (by omega)]
  · intro hact hle hexp
    unfold clean_expired_session
    rw [if_neg (by omega), if_neg (not_not_intro hexp),
      if_neg (not_not_intro hact)]

/-- C3 witness: the amended statement evaluated on a locked vault with
an `Active` session, in particular showing `lose_session` and
`clean_expired_session` succeeding despite the lock. -/
theorem lock_scope_witness :
    start_session ⟨true, 500⟩ 100000 2 60 = .error .HouseLocked ∧
    play_round GameConfig.default_config ⟨true, 500⟩
      ⟨.Active, 60, 60, 500, 1, 2⟩ 0 2 = .error .HouseLocked ∧
    cash_out ⟨true, 500⟩ 100000 ⟨.Active, 60, 60, 500, 1, 2⟩ 2 =
      .error .HouseLocked ∧
    lose_session ⟨true, 500⟩ ⟨.Active, 60, 60, 500, 1, 2⟩ =
      .ok (⟨true, 0⟩, ⟨.Lost, 60, 60, 500, 1, 2⟩) ∧
    clean_expired_session ⟨true, 500⟩ ⟨.Active, 60, 60, 500, 1, 2⟩ 99999 =
      .ok ⟨true, 0⟩ := by
  obtain ⟨h1, h2, h3, h4, h5⟩ :=
    lock_scope ⟨true, 500⟩ GameConfig.default_config
      ⟨.Active, 60, 60, 500, 1, 2⟩ 100000 2 60 0
  obtain ⟨-, -, -, -, h5'⟩ :=
    lock_scope ⟨true, 500⟩ GameConfig.default_config
      ⟨.Active, 60, 60, 500, 1, 2⟩ 100000 99999 60 0
  exact ⟨h1 rfl, h2 rfl, h3 rfl rfl, h4 rfl (by decide),
    h5' rfl (by decide) (by decide)⟩

/-- C4 counterexample: timeout-reclaim on a `Lost` session that is not
yet expired fails with `SessionNotExpired`, not `InvalidSessionStatus`
— `clean_expired_session` checks expiry before status. -/
theorem terminal_clean_error_counterexample :
    (⟨.Lost, 100, 100, 10000, 1, 50⟩ : GameSession).status = .Lost ∧
    clean_expired_session ⟨false, 10000⟩ ⟨.Lost, 100, 100, 10000, 1, 50⟩ 50 =
      .error .SessionNotExpired ∧
    GameError.SessionNotExpired ≠ GameError.InvalidSessionStatus := by
  exact ⟨rfl, rfl, by decide⟩

/-- C4 (amended): a session in a terminal status (`Lost` or
`CashedOut`) is final: every mutating operation fails and leaves it
unchanged.  `cash_out`, `lose_session`, `mark_lost` and
`mark_cashed_out` always report `InvalidSessionStatus`; `play_round`
reports `InvalidSessionStatus` unless the vault lock pre-empts it with
`HouseLocked`; `clean_expired_session` reports `InvalidSessionStatus`
when the session is expired but `SessionNotExpired` (or `Overflow` on
clock regression) when it is not, so it also never mutates a terminal
session.  Hence no transition out of a terminal status is reachable. -/
theorem terminal_status_is_final (s : GameSession)
    (hterm : s.status = .Lost ∨ s.status = .CashedOut)
    (config : GameConfig) (v : HouseVault) (bal roll slot : Nat) :
    (v.locked = false →
      play_round config v s roll slot = .error .InvalidSessionStatus) ∧
    (v.locked = true →
      play_round config v s roll slot = .error .HouseLocked) ∧
    cash_out v bal s slot = .error .InvalidSessionStatus ∧
    lose_session v s = .error .InvalidSessionStatus ∧
    s.mark_lost = .error .InvalidSessionStatus ∧
    s.mark_cashed_out = .error .InvalidSessionStatus ∧
    (s.last_active_slot ≤ slot → TIMEOUT_SLOTS < slot - s.last_active_slot →
      clean_expired_session v s slot = .error .InvalidSessionStatus) ∧
    (s.last_active_slot ≤ slot →
      ¬ TIMEOUT_SLOTS < slot - s.last_active_slot →
      clean_expired_session v s slot = .error .SessionNotExpired) ∧
    (slot < s.last_active_slot →
      clean_expired_session v s slot = .error .Overflow) := by
  have hne : ¬ s.status = .Active := by
    rcases hterm with h | h <;> simp [h]
  refine ⟨?_, ?_, ?_, ?_, ?_, ?_, ?_, ?_, ?_⟩
  · intro hl
    unfold play_round
    rw [if_neg (by simp [hl]), if_pos hne]
  · intro hl
    unfold play_round
    rw [if_pos hl]
  · unfold cash_out
    rw [if_pos hne]
  · unfold lose_session
    rw [if_pos hne]
  · unfold GameSession.mark_lost
    rw [if_neg hne]
  · unfold GameSession.mark_cashed_out
    rw [if_neg hne]
  · intro h1 h2
    unfold clean_expired_session
    rw [if_neg (by omega), if_neg (not_not_intro h2), if_pos hne]
  · intro h1 h2
    unfold clean_expired_session
    rw [if_neg (by omega), if_pos h2]
  · intro h1
    unfold clean_expired_session
    rw [if_pos h1]

/-- C4 witness: the finality of a concrete `CashedOut` session under
both lock settings and both fresh and expired clocks. -/
theorem terminal_status_is_final_witness :
    play_round GameConfig.default_config ⟨false, 9000⟩
      ⟨.CashedOut, 50, 60, 5000, 2, 10⟩ 0 10 = .error .InvalidSessionStatus ∧
    play_round GameConfig.default_config ⟨true, 9000⟩
      ⟨.CashedOut, 50, 60, 5000, 2, 10⟩ 0 10 = .error .HouseLocked ∧
    cash_out ⟨false, 9000⟩ 0 ⟨.CashedOut, 50, 60, 5000, 2, 10⟩ 10 =
      .error .InvalidSessionStatus ∧
    lose_session ⟨false, 9000⟩ ⟨.CashedOut, 50, 60, 5000, 2, 10⟩ =
      .error .InvalidSessionStatus ∧
    GameSession.mark_lost ⟨.CashedOut, 50, 60, 5000, 2, 10⟩ =
      .error .InvalidSessionStatus ∧
    GameSession.mark_cashed_out ⟨.CashedOut, 50, 60, 5000, 2, 10⟩ =
      .error .InvalidSessionStatus ∧
    clean_expired_session ⟨false, 9000⟩ ⟨.CashedOut, 50, 60, 5000, 2, 10⟩
      20000 = .error .InvalidSessionStatus ∧
    clean_expired_session ⟨false, 9000⟩ ⟨.CashedOut, 50, 60, 5000, 2, 10⟩
      10 = .error .SessionNotExpired ∧
    clean_expired_session ⟨false, 9000⟩ ⟨.CashedOut, 50, 60, 5000, 2, 10⟩
      3 = .error .Overflow := by
  obtain ⟨a1, -, a3, a4, a5, a6, a7, -, -⟩ :=
    terminal_status_is_final ⟨.CashedOut, 50, 60, 5000, 2, 10⟩
      (Or.inr rfl) GameConfig.default_config ⟨false, 9000⟩ 0 0 20000
  obtain ⟨-, b2, -, -, -, -, -, -, -⟩ :=
    terminal_status_is_final ⟨.CashedOut, 50, 60, 5000, 2, 10⟩
      (Or.inr rfl) GameConfig.default_config ⟨true, 9000⟩ 0 0 10
  obtain ⟨-, -, -, -, -, -, -, c8, -⟩ :=
    terminal_status_is_final ⟨.CashedOut, 50, 60, 5000, 2, 10⟩
      (Or.inr rfl) GameConfig.default_config ⟨false, 9000⟩ 0 0 10
  obtain ⟨-, -, -, -, -, -, -, -, d9⟩ :=
    terminal_status_is_final ⟨.CashedOut, 50, 60, 5000, 2, 10⟩
      (Or.inr rfl) GameConfig.default_config ⟨false, 9000⟩ 0 0 3
  exact ⟨a1 rfl, b2 rfl, a3, a4, a5, a6, a7 (by decide) (by decide),
    c8 (by decide) (by decide), d9 (by decide)⟩

/-- C5 counterexample: `start_session` accepts a bet of 1 lamport even
though the configured `min_bet` of the default configuration is
50000000 — the handler validates only `bet_amount > 0` and does not
read the config's bet bounds at all. -/
theorem start_session_ignores_bet_bounds_counterexample :
    1 < GameConfig.default_config.min_bet ∧
    start_session ⟨false, 0⟩ 10000000000 0 1 =
      .ok (⟨false, 100⟩, ⟨.Active, 1, 1, 100, 1, 0⟩) := by
  exact ⟨by decide, by decide⟩

/-- C5 (amended): the only bet validation `start_session` performs is
`bet_amount > 0`: it rejects with `InvalidBetAmount` exactly when the
vault is unlocked and the bet is zero.  The configured
`min_bet`/`max_bet` bounds are stored (and cross-validated) in
`GameConfig` but never consulted at session open — the config account
is not even an input of the handler. -/
theorem start_session_bet_validation (v : HouseVault)
    (bal slot bet : Nat) :
    start_session v bal slot bet = .error .InvalidBetAmount ↔
      v.locked = false ∧ bet = 0 := by
  constructor
  · intro h
    simp only [start_session] at h
    split at h
    · rename_i hl
      simp only [Except.error.injEq] at h
      exact absurd h (by decide)
    · rename_i hl
      split at h
      · rename_i hb
        exact ⟨by simpa using hl, hb⟩
      · split at h
        · simp only [Except.error.injEq] at h
          exact absurd h (by decide)
        · split at h
          · simp only [Except.error.injEq] at h
            exact absurd h (by decide)
          · split at h
            · simp only [Except.error.injEq] at h
              exact absurd h (by decide)
            · exact absurd h (by simp)
  · intro ⟨hl, hb⟩
    simp only [start_session]
    rw [if_neg (by simp [hl]), if_pos hb]

/-- C5 witness: the amended characterization evaluated at a zero bet
on an unlocked vault. -/
theorem start_session_bet_validation_witness :
    start_session ⟨false, 7⟩ 50 0 0 = .error .InvalidBetAmount := by
  exact (start_session_bet_validation ⟨false, 7⟩ 50 0 0).mpr ⟨rfl, rfl⟩

/-- C6: opening a session requires the vault's free liquidity (balance
after the bet deposit minus `total_reserved`) to cover the new
session's `max_payout`, otherwise it fails with the
insufficient-balance error (`InsufficientVaultBalance` in the source's
error enum) and — the handler being all-or-nothing — no ledger or
session state change persists.  In particular the spec's concrete
scenario: bet 1000000 against a ledger holding 50000000 with
`max_payout = 100 × bet = 100000000` fails with that error. -/
theorem open_requires_free_liquidity :
    (∀ (v : HouseVault) (bal slot bet : Nat),
      v.locked = false → bet ≠ 0 →
      v.total_reserved ≤ bal + bet →
      bal + bet - v.total_reserved < max_payout_for_bet bet →
      start_session v bal slot bet = .error .InsufficientVaultBalance) ∧
    start_session ⟨false, 0⟩ 50000000 7 1000000 =
      .error .InsufficientVaultBalance ∧
    max_payout_for_bet 1000000 = 100000000 := by
  refine ⟨?_, by decide, by decide⟩
  intro v bal slot bet hl hb hsub hlt
  simp only [start_session]
  rw [if_neg (by simp [hl]), if_neg hb, if_neg (by omega), if_pos hlt]

/-- C6 witness: the general liquidity requirement applied at the
spec's concrete scenario numbers. -/
theorem open_requires_free_liquidity_witness :
    start_session ⟨false, 0⟩ 50000000 7 1000000 =
      .error .InsufficientVaultBalance := by
  exact open_requires_free_liquidity.1 ⟨false, 0⟩ 50000000 7 1000000
    rfl (by decide) (by decide) (by decide)

/-- C7: `survival_probability_bps` never panics on any `u16` dive index
(including 0 and 65535, where the `saturating_sub`/`saturating_mul`
keep the arithmetic total), equals
`max(base - (dive - 1) * decay, min)` with the source constants
base 990000, decay 5000, min 100000 (the `u32` saturation never
distorts the value), stays within `[100000, 1000000]`, is
non-increasing in the dive index, and takes the spec's concrete values
at dives 1, 10 and 181. -/
theorem survival_probability_spec :
    (∀ d, d ≤ 65535 →
      survival_probability_bps d = max (990000 - (d - 1) * 5000) 100000) ∧
    (∀ d, d ≤ 65535 →
      100000 ≤ survival_probability_bps d ∧
      survival_probability_bps d ≤ 1000000) ∧
    (∀ d d', d ≤ d' → d' ≤ 65535 →
      survival_probability_bps d' ≤ survival_probability_bps d) ∧
    survival_probability_bps 1 = 990000 ∧
    survival_probability_bps 10 = 945000 ∧
    survival_probability_bps 181 = 100000 := by
  refine ⟨fun d _ => survival_probability_bps_eq d,
    fun d _ => ⟨survival_probability_bps_lower d,
      survival_probability_bps_upper d⟩,
    fun d d' h _ => survival_probability_bps_antitone h,
    by decide, by decide, by decide⟩

/-- C7 witness: the survival-curve properties evaluated at concrete
dive indices. -/
theorem survival_probability_spec_witness :
    survival_probability_bps 7 = max (990000 - (7 - 1) * 5000) 100000 ∧
    100000 ≤ survival_probability_bps 7 ∧
    survival_probability_bps 7 ≤ 1000000 ∧
    survival_probability_bps 9 ≤ survival_probability_bps 7 ∧
    survival_probability_bps 1 = 990000 := by
  obtain ⟨f1, f2, f3, f4, -, -⟩ := survival_probability_spec
  exact ⟨f1 7 (by omega), (f2 7 (by omega)).1, (f2 7 (by omega)).2,
    f3 7 9 (by omega) (by omega), f4⟩

/-- C8: the treasure curve starts at the bet (`dive_index = 0` returns
the bet unchanged), never exceeds `max_payout_for_bet` (the
saturating `bet * 100` cap), is weakly increasing in the dive index,
and once it reaches the cap it stays constant at exactly the cap. -/
theorem treasure_curve_spec (bet dive : Nat) (hbet : bet ≤ U64MAX) :
    treasure_for_dive bet 0 = bet ∧
    treasure_for_dive bet dive ≤ max_payout_for_bet bet ∧
    treasure_for_dive bet dive ≤ treasure_for_dive bet (dive + 1) ∧
    (treasure_for_dive bet dive = max_payout_for_bet bet →
      treasure_for_dive bet (dive + 1) = max_payout_for_bet bet) := by
  refine ⟨by simp [treasure_for_dive], treasure_for_dive_le hbet dive,
    treasure_for_dive_mono hbet dive, ?_⟩
  intro hc
  exact Nat.le_antisymm (treasure_for_dive_le hbet (dive + 1))
    (hc ▸ treasure_for_dive_mono hbet dive)

/-- C8 witness: the treasure-curve properties at bet 1000000, both
below the cap (dive 3) and at the cap (the curve reaches
`max_payout = 100000000` at dive 49 and stays there at dive 50). -/
theorem treasure_curve_spec_witness :
    treasure_for_dive 1000000 0 = 1000000 ∧
    treasure_for_dive 1000000 3 ≤ max_payout_for_bet 1000000 ∧
    treasure_for_dive 1000000 3 ≤ treasure_for_dive 1000000 4 ∧
    treasure_for_dive 1000000 50 = max_payout_for_bet 1000000 := by
  obtain ⟨a, b, c, -⟩ := treasure_curve_spec 1000000 3 (by decide)
  obtain ⟨-, -, -, d⟩ := treasure_curve_spec 1000000 49 (by decide)
  exact ⟨a, b, c, d (by decide)⟩

/-- C9 counterexample: an `Active` but locked session with
`current_treasure ≤ bet_amount` fails `cash_out` with `HouseLocked`,
not the insufficient-treasure error — the lock check precedes the
profitability check. -/
theorem cash_out_locked_counterexample :
    (⟨.Active, 100, 100, 10000, 1, 0⟩ : GameSession).status = .Active ∧
    (⟨.Active, 100, 100, 10000, 1, 0⟩ : GameSession).current_treasure ≤
      (⟨.Active, 100, 100, 10000, 1, 0⟩ : GameSession).bet_amount ∧
    cash_out ⟨true, 10000⟩ 10000 ⟨.Active, 100, 100, 10000, 1, 0⟩ 5 =
      .error .HouseLocked ∧
    GameError.HouseLocked ≠ GameError.InsufficientTreasure := by
  exact ⟨rfl, by decide, rfl, by decide⟩

/-- C9 (amended): `cash_out` succeeds only from an `Active` session
whose `current_treasure` strictly exceeds `bet_amount`; and whenever
the session is `Active`, the vault unlocked, and
`current_treasure ≤ bet_amount`, it fails with `InsufficientTreasure`
(every failure of the all-or-nothing handler leaves session status and
`total_reserved` unchanged). -/
theorem cash_out_profitability :
    (∀ (v : HouseVault) (bal : Nat) (s : GameSession) (slot : Nat)
      (v' : HouseVault) (out : Option GameSession),
      cash_out v bal s slot = .ok (v', out) →
      s.status = .Active ∧ s.bet_amount < s.current_treasure) ∧
    (∀ (v : HouseVault) (bal : Nat) (s : GameSession) (slot : Nat),
      s.status = .Active → v.locked = false →
      s.current_treasure ≤ s.bet_amount →
      cash_out v bal s slot = .error .InsufficientTreasure) := by
  constructor
  · intro v bal s slot v' out h
    obtain ⟨h1, h2, -, -, -⟩ := cash_out_ok h
    exact ⟨h1, h2⟩
  · intro v bal s slot hact hl hle
    unfold cash_out
    rw [if_neg (not_not_intro hact), if_neg (by simp [hl]),
      if_pos (by omega)]

/-- C9 witness: an unprofitable `Active` session on an unlocked vault
rejected with `InsufficientTreasure`. -/
theorem cash_out_profitability_witness :
    cash_out ⟨false, 500⟩ 500 ⟨.Active, 200, 150, 300, 2, 0⟩ 9 =
      .error .InsufficientTreasure := by
  exact cash_out_profitability.2 ⟨false, 500⟩ 500
    ⟨.Active, 200, 150, 300, 2, 0⟩ 9 rfl rfl (by decide)

/-- C10 counterexample: for bet 5 the treasure curve is stuck at 5
(the integer growth `5 * 11 / 10 = 5` never moves), so no dive index
reaches `max_payout_for_bet 5 = 500`: `max_dives_for_bet 5` returns
the hardcoded guard bound 200, which satisfies neither
`treasure_for_dive = max_payout_for_bet` nor the claimed
`config.max_dives` bound (5 in the default config). -/
theorem max_dives_claim_counterexample :
    max_dives_for_bet 5 = 200 ∧
    treasure_for_dive 5 (max_dives_for_bet 5) ≠ max_payout_for_bet 5 ∧
    GameConfig.default_config.max_dives = 5 ∧
    ¬ max_dives_for_bet 5 ≤ GameConfig.default_config.max_dives := by
  exact ⟨by decide, by decide, by decide, by decide⟩

/-- C10 (amended): `max_dives_for_bet` terminates for every bet with a
result in `[1, 200]`: it returns the smallest dive index at which
`treasure_for_dive` equals `max_payout_for_bet` whenever such an index
exists below the hardcoded guard bound 200 (every skipped index is
strictly below the cap), and otherwise returns 200 — the bound is the
constant 200, not `config.max_dives`. -/
theorem max_dives_for_bet_spec (bet : Nat) :
    1 ≤ max_dives_for_bet bet ∧
    max_dives_for_bet bet ≤ 200 ∧
    (treasure_for_dive bet (max_dives_for_bet bet) =
        max_payout_for_bet bet ∨
      max_dives_for_bet bet = 200) ∧
    ∀ d, 1 ≤ d → d < max_dives_for_bet bet →
      treasure_for_dive bet d < max_payout_for_bet bet := by
  have hdef : max_dives_for_bet bet =
      maxDivesLoop bet (max_payout_for_bet bet) 200 1 := rfl
  rw [hdef]
  obtain ⟨g1, g2, g3, g4⟩ :=
    maxDivesLoop_spec bet (max_payout_for_bet bet) 200 1
      (by omega) (by omega) (by omega)
  refine ⟨g1, g2, ?_, g4⟩
  rcases g3 with h | h
  · left
    have hle : treasure_for_dive bet
        (maxDivesLoop bet (max_payout_for_bet bet) 200 1) ≤
        max_payout_for_bet bet := by
      unfold treasure_for_dive
      rw [if_neg (by omega)]
      exact treasureLoop_le _ _ _
    omega
  · right; exact h

/-- C10 witness: the amended search specification at bet 1000000
(where the cap is reached at dive 49 < 200), including a minimality
instance at dive 10. -/
theorem max_dives_for_bet_spec_witness :
    1 ≤ max_dives_for_bet 1000000 ∧
    max_dives_for_bet 1000000 ≤ 200 ∧
    (treasure_for_dive 1000000 (max_dives_for_bet 1000000) =
        max_payout_for_bet 1000000 ∨
      max_dives_for_bet 1000000 = 200) ∧
    treasure_for_dive 1000000 10 < max_payout_for_bet 1000000 := by
  obtain ⟨a, b, c, d⟩ := max_dives_for_bet_spec 1000000
  exact ⟨a, b, c, d 10 (by omega) (by decide)⟩
